import Mathlib

/-!
Verification development for the Yokogawa AQ6370D optical spectrum analyzer
driver (`pymeasure/instruments/yokogawa/aq6370d.py`).

The driver is a declarative mapping from named controls to SCPI command
strings.  Each control carries a query command, a set command template
(with one `%g`, `%d` or `%s` slot), an optional validator and an optional
value map.  The concrete descriptors (command strings, bounds, maps) are
embedded verbatim from the source file.  The generic control mechanism
(`Instrument.control`, `strict_range`, `strict_discrete_set`) lives outside
the source tree, so it is modelled from the specification, as marked on the
individual definitions.

Numeric values exchanged with the device are modelled as exact decimal
numbers `mant * 10 ^ exp` (`DecNum`), which represent every literal
appearing in the driver exactly and make validation and `%g` rendering
fully computable.
-/

/-- Exact decimal number: the value `mant * 10 ^ exp`.  This models the
numeric candidate values and bounds of the driver (all of which are decimal
literals) without floating-point rounding. -/
structure DecNum where
  mant : Int
  exp : Int
deriving DecidableEq

/-- Rational value denoted by a `DecNum`. -/
def DecNum.toRat (d : DecNum) : ℚ := (d.mant : ℚ) * 10 ^ d.exp

/-- Comparison of two decimal numbers, by rescaling both to the smaller
exponent and comparing integer mantissas. -/
def DecNum.le (a b : DecNum) : Bool :=
  decide (a.mant * 10 ^ (a.exp - min a.exp b.exp).toNat
    ≤ b.mant * 10 ^ (b.exp - min a.exp b.exp).toNat)

/-- Number of decimal digits of `n` (with explicit fuel; `digitsLen n n`
is always enough fuel). -/
def digitsLen : Nat → Nat → Nat
  | 0, _ => 1
  | fuel + 1, n => if n < 10 then 1 else 1 + digitsLen fuel (n / 10)

/-- Drop the last `k` decimal digits of `s`, rounding half to even. -/
def round6 (s : Nat) (k : Nat) : Nat :=
  let q := s / 10 ^ k
  let r := s % 10 ^ k
  let h := 10 ^ k / 2
  if r > h ∨ (r = h ∧ q % 2 = 1) then q + 1 else q

/-- Strip trailing `'0'` characters. -/
def stripZeros (s : String) : String :=
  ⟨(s.data.reverse.dropWhile (fun c => c == '0')).reverse⟩

/-- A string of `n` `'0'` characters. -/
def zeros (n : Nat) : String := ⟨List.replicate n '0'⟩

/-- Decimal rendering of `n`, padded to at least two digits. -/
def pad2 (n : Nat) : String := if n < 10 then "0" ++ toString n else toString n

/-- `%g` rendering of the positive value `s * 10 ^ e` (`s > 0`): six
significant digits, trailing zeros stripped, scientific notation when the
decimal exponent is below `-4` or at least `6`, as in C/Python `%g`. -/
def fmtGpos (s : Nat) (e : Int) : String :=
  let len := digitsLen s s
  let n0 := if len ≤ 6 then s * 10 ^ (6 - len) else round6 s (len - 6)
  let E0 : Int := (len : Int) - 1 + e
  let n6 := if n0 = 10 ^ 6 then 10 ^ 5 else n0
  let E := if n0 = 10 ^ 6 then E0 + 1 else E0
  let s6 := toString n6
  if -4 ≤ E ∧ E < 6 then
    if 0 ≤ E then
      let ip := s6.take (E.toNat + 1)
      let fp := stripZeros (s6.drop (E.toNat + 1))
      if fp = "" then ip else ip ++ "." ++ fp
    else
      "0." ++ zeros (E.natAbs - 1) ++ stripZeros s6
  else
    let mh := s6.take 1
    let mr := stripZeros (s6.drop 1)
    let mant := if mr = "" then mh else mh ++ "." ++ mr
    mant ++ "e" ++ (if E < 0 then "-" else "+") ++ pad2 E.natAbs

/-- Modelled from the spec: the `%g` formatting convention used by every
range-validated set command (spec section 6 requires `%g` formatting to be
preserved bit-for-bit). -/
def fmtG (d : DecNum) : String :=
  if d.mant = 0 then "0"
  else if d.mant < 0 then "-" ++ fmtGpos d.mant.natAbs d.exp
  else fmtGpos d.mant.natAbs d.exp

/-- Replace the first occurrence of `pat` in the character list by `rep`. -/
def replaceOnce (pat rep : List Char) : List Char → List Char
  | [] => []
  | c :: cs =>
    if List.isPrefixOf pat (c :: cs) then rep ++ (c :: cs).drop pat.length
    else c :: replaceOnce pat rep cs

/-- Modelled from the spec: formatting a set command template by
substituting the rendered value for the template's single slot
(`%g`, `%d` or `%s`). -/
def pyFormat (tmpl slot val : String) : String :=
  ⟨replaceOnce slot.data val.data tmpl.data⟩

/-- Error kinds of the validation/mapping layer (spec section 7), plus the
formatting-time type error Python raises when a `%d` slot receives a
non-numeric value. -/
inductive PyError where
  | rangeError
  | invalidChoiceError
  | mappingError
  | typeError
deriving DecidableEq

/-- Candidate values a caller can hand to the unvalidated `active_trace`
control: an integer or a string. -/
inductive PyVal where
  | int (n : Int)
  | str (s : String)
deriving DecidableEq

/-- Modelled from the spec: the `strict_range` validator (not under the
source tree).  A candidate inside `[lo, hi]` is returned unchanged; any
other candidate fails with `RangeError`. -/
def strict_range (value lo hi : DecNum) : Except PyError DecNum :=
  if DecNum.le lo value && DecNum.le value hi then .ok value
  else .error .rangeError

/-- A range-validated control: query command, set command template
(one `%g` slot) and the declared `[lo, hi]` bounds. -/
structure RangeControl where
  get_command : String
  set_command : String
  lo : DecNum
  hi : DecNum

/-- Modelled from the spec: the set operation of a range-validated control.
The candidate is validated first; only a validated value is formatted into
the set command, and a failed validation produces no command at all. -/
def RangeControl.set (c : RangeControl) (v : DecNum) : Except PyError String :=
  match strict_range v c.lo c.hi with
  | .ok w => .ok (pyFormat c.set_command "%g" (fmtG w))
  | .error e => .error e

/-- A discrete/mapped control: query command, set command template with its
slot, and the symbolic-key-to-device-code map. -/
structure MappedControl where
  get_command : String
  set_command : String
  slot : String
  values : List (String × Int)

/-- Modelled from the spec: the set operation of a mapped control.  The
candidate is validated against the map's keys (`strict_discrete_set`); a
present key is translated to its device code, which is what gets formatted
into the command; an absent key fails with `InvalidChoiceError` and no
command is produced. -/
def MappedControl.set (c : MappedControl) (v : String) : Except PyError String :=
  match c.values.find? (fun p => p.1 == v) with
  | some p => .ok (pyFormat c.set_command c.slot (toString p.2))
  | none => .error .invalidChoiceError

/-- Modelled from the spec: the get operation of a mapped control, applied
to the device's (already parsed) raw response.  A response equal to a
mapped code yields the corresponding symbolic key; an unmapped response
fails with `MappingError`. -/
def MappedControl.getFromResponse (c : MappedControl) (r : Int) :
    Except PyError String :=
  match c.values.find? (fun p => p.2 == r) with
  | some p => .ok p.1
  | none => .error .mappingError

-- Descriptors, embedded from the source file --------------------------------

/-- `reference_level` control (source lines 53-59). -/
def reference_level : RangeControl :=
  { get_command := ":DISPlay:TRACe:Y1:SCALe:RLEVel?"
    set_command := ":DISPlay:TRACe:Y1:SCALe:RLEVel %g"
    lo := ⟨-100, 0⟩
    hi := ⟨20, 0⟩ }

/-- `level_position` control (source lines 61-68). -/
def level_position : RangeControl :=
  { get_command := ":DISPlay:TRACe:Y1:RPOSition?"
    set_command := ":DISPlay:TRACe:Y1:RPOSition %g"
    lo := ⟨0, 0⟩
    hi := ⟨12, 0⟩ }

/-- `sweep_mode` control (source lines 76-83). -/
def sweep_mode : MappedControl :=
  { get_command := ":INITiate:SMODe?"
    set_command := ":INITiate:SMODe %s"
    slot := "%s"
    values := [("SINGLE", 1), ("REPEAT", 2), ("AUTO", 3), ("SEGMENT", 4)] }

/-- `sweep_speed` control (source lines 85-92). -/
def sweep_speed : MappedControl :=
  { get_command := ":SENSe:SETTing:SPEed?"
    set_command := ":SENSe:SWEep:SPEed %d"
    slot := "%d"
    values := [("1x", 0), ("2x", 1)] }

/-- `sweep_time_interval` control (source lines 94-100). -/
def sweep_time_interval : RangeControl :=
  { get_command := ":SENSe:SWEep:TIME:INTerval?"
    set_command := ":SENSe:SWEep:TIME:INTerval %g"
    lo := ⟨0, 0⟩
    hi := ⟨99999, 0⟩ }

/-- `wavelength_center` control (source lines 104-110). -/
def wavelength_center : RangeControl :=
  { get_command := ":SENSe:WAVelength:CENTer?"
    set_command := ":SENSe:WAVelength:CENTer %g"
    lo := ⟨50, -9⟩
    hi := ⟨2250, -9⟩ }

/-- `wavelength_span` control (source lines 112-118). -/
def wavelength_span : RangeControl :=
  { get_command := ":SENSe:WAVelength:SPAN?"
    set_command := ":SENSe:WAVelength:SPAN %g"
    lo := ⟨0, 0⟩
    hi := ⟨1100, -9⟩ }

/-- `wavelength_start` control (source lines 120-126). -/
def wavelength_start : RangeControl :=
  { get_command := ":SENSe:WAVelength:STARt?"
    set_command := ":SENSe:WAVelength:STARt %g"
    lo := ⟨50, -9⟩
    hi := ⟨2250, -9⟩ }

/-- `wavelength_stop` control (source lines 128-134). -/
def wavelength_stop : RangeControl :=
  { get_command := ":SENSe:WAVelength:STOP?"
    set_command := ":SENSe:WAVelength:STOP %g"
    lo := ⟨50, -9⟩
    hi := ⟨2250, -9⟩ }

/-- `resolution_bandwidth` control (source lines 184-191; `0.02e-9` is
written as `2 * 10 ^ (-11)`). -/
def resolution_bandwidth : RangeControl :=
  { get_command := ":SENSe:BWIDth:RESolution?"
    set_command := ":SENSe:BWIDth:RESolution %g"
    lo := ⟨2, -11⟩
    hi := ⟨2, -9⟩ }

/-- Modelled from the spec: `active_trace` (source lines 138-142) is
declared with no validator and no value map, so `Instrument.control`'s
default pass-through validator applies: an integer candidate is formatted
directly into the `%d` slot, and a string candidate fails at formatting
time with a `TypeError`; no candidate is ever rejected by validation. -/
def active_trace_set (v : PyVal) : Except PyError String :=
  match v with
  | .int n => .ok (pyFormat ":TRACe:ACTive %d" "%d" (toString n))
  | .str _ => .error .typeError

-- Methods, embedded from the source file -------------------------------------

/-- `copy_trace` (source lines 144-151): the single command it writes. -/
def copy_trace (source destination : String) : String :=
  ":TRACe:COPY " ++ source ++ "," ++ destination

/-- `delete_trace` (source lines 153-162): the single command it writes. -/
def delete_trace (trace : String) : String :=
  if trace == "ALL" then ":TRACe:DELete:ALL"
  else ":TRACe:DELete " ++ trace

/-- `get_xdata` (source lines 164-171): queries `:TRACe:X? {trace}`
(default trace `"TRA"`) and returns the connection's parsed float sequence
unchanged.  `vals` is the borrowed connection's `values` method. -/
def get_xdata (vals : String → List DecNum) (trace : String := "TRA") :
    List DecNum :=
  vals (":TRACe:X? " ++ trace)

/-- `get_ydata` (source lines 173-180): queries `:TRACe:Y? {trace}`
(default trace `"TRA"`) and returns the connection's parsed float sequence
unchanged. -/
def get_ydata (vals : String → List DecNum) (trace : String := "TRA") :
    List DecNum :=
  vals (":TRACe:Y? " ++ trace)

-- Connection-event model ------------------------------------------------------

/-- One interaction with the connection: a bare write, or a query (one
write followed by waiting for exactly one response). -/
inductive Event where
  | write (cmd : String)
  | query (cmd : String)
deriving DecidableEq

/-- Number of writes an event issues (a query also writes its command). -/
def Event.writes : Event → Nat
  | .write _ => 1
  | .query _ => 1

/-- Number of responses an event waits for. -/
def Event.responses : Event → Nat
  | .write _ => 0
  | .query _ => 1

/-- Total writes of an interaction trace. -/
def writesOf (es : List Event) : Nat := (es.map Event.writes).sum

/-- Total responses of an interaction trace. -/
def responsesOf (es : List Event) : Nat := (es.map Event.responses).sum

/-- Names of the eight range-validated controls of the driver. -/
inductive RangeId where
  | referenceLevel
  | levelPosition
  | sweepTimeInterval
  | wavelengthCenter
  | wavelengthSpan
  | wavelengthStart
  | wavelengthStop
  | resolutionBandwidth
deriving DecidableEq

/-- Descriptor of each range-validated control. -/
def rangeControl : RangeId → RangeControl
  | .referenceLevel => reference_level
  | .levelPosition => level_position
  | .sweepTimeInterval => sweep_time_interval
  | .wavelengthCenter => wavelength_center
  | .wavelengthSpan => wavelength_span
  | .wavelengthStart => wavelength_start
  | .wavelengthStop => wavelength_stop
  | .resolutionBandwidth => resolution_bandwidth

/-- Names of the two mapped controls of the driver. -/
inductive MappedId where
  | sweepMode
  | sweepSpeed
deriving DecidableEq

/-- Descriptor of each mapped control. -/
def mappedControl : MappedId → MappedControl
  | .sweepMode => sweep_mode
  | .sweepSpeed => sweep_speed

/-- Every public operation of the driver, with its arguments. -/
inductive Op where
  | abort
  | initiate
  | levelPositionMax
  | copyTrace (source destination : String)
  | deleteTrace (trace : String)
  | getXdata (trace : String)
  | getYdata (trace : String)
  | setRange (c : RangeId) (v : DecNum)
  | getRange (c : RangeId)
  | setMapped (c : MappedId) (v : String)
  | getMapped (c : MappedId)
  | setActiveTrace (v : PyVal)
  | getActiveTrace

/-- Connection-interaction trace of each operation.  A set whose
validation fails interacts with the connection not at all. -/
def opEvents : Op → List Event
  | .abort => [.write ":ABORt"]
  | .initiate => [.write ":INITiate:IMMediate"]
  | .levelPositionMax => [.write ":CALCulate:MARKer:MAXimum:SRLevel"]
  | .copyTrace s d => [.write (copy_trace s d)]
  | .deleteTrace t => [.write (delete_trace t)]
  | .getXdata t => [.query (":TRACe:X? " ++ t)]
  | .getYdata t => [.query (":TRACe:Y? " ++ t)]
  | .setRange c v =>
    match (rangeControl c).set v with
    | .ok cmd => [.write cmd]
    | .error _ => []
  | .getRange c => [.query (rangeControl c).get_command]
  | .setMapped c v =>
    match (mappedControl c).set v with
    | .ok cmd => [.write cmd]
    | .error _ => []
  | .getMapped c => [.query (mappedControl c).get_command]
  | .setActiveTrace v =>
    match active_trace_set v with
    | .ok cmd => [.write cmd]
    | .error _ => []
  | .getActiveTrace => [.query ":TRACe:ACTive?"]

/-- Whether an operation is a query (expects a device response). -/
def isQueryOp : Op → Bool
  | .getXdata _ => true
  | .getYdata _ => true
  | .getRange _ => true
  | .getMapped _ => true
  | .getActiveTrace => true
  | _ => false

-- Supporting lemmas -----------------------------------------------------------

/-- Soundness of the decimal comparison: `DecNum.le` agrees with the order
on the rational values the decimals denote. -/
theorem DecNum.le_iff_toRat (a b : DecNum) :
    DecNum.le a b = true ↔ a.toRat ≤ b.toRat := by
  have h10 : (0 : ℚ) < 10 := by norm_num
  have hμa : (0 : ℤ) ≤ a.exp - min a.exp b.exp :=
    sub_nonneg.mpr (min_le_left _ _)
  have hμb : (0 : ℤ) ≤ b.exp - min a.exp b.exp :=
    sub_nonneg.mpr (min_le_right _ _)
  have key : ∀ m e : ℤ, 0 ≤ e - min a.exp b.exp →
      ((m * 10 ^ (e - min a.exp b.exp).toNat : ℤ) : ℚ)
        = (m : ℚ) * 10 ^ e * 10 ^ (-(min a.exp b.exp)) := by
    intro m e he
    push_cast
    rw [← zpow_natCast (10 : ℚ) (e - min a.exp b.exp).toNat,
      Int.toNat_of_nonneg he, zpow_sub₀ (ne_of_gt h10), zpow_neg]
    ring
  have cast_iff : ∀ x y : ℤ, x ≤ y ↔ ((x : ℚ) ≤ (y : ℚ)) := fun x y =>
    Int.cast_le.symm
  unfold DecNum.le DecNum.toRat
  rw [decide_eq_true_iff, cast_iff, key _ _ hμa, key _ _ hμb]
  constructor
  · intro h
    exact le_of_mul_le_mul_right h (zpow_pos h10 _)
  · intro h
    exact mul_le_mul_of_nonneg_right h (le_of_lt (zpow_pos h10 _))

/-- Formatting the `active_trace` set template interpolates the rendered
value after the fixed command head. -/
theorem pyFormat_active_trace (s : String) :
    pyFormat ":TRACe:ACTive %d" "%d" s = ":TRACe:ACTive " ++ s := by
  simp [pyFormat, replaceOnce]
  rfl

-- Claim theorems --------------------------------------------------------------

/-- C1: for every range-validated control of the driver and every candidate
value, a candidate inside the declared `[min, max]` makes the set operation
succeed and format the set command with exactly that candidate, while a
candidate outside makes it fail with `RangeError` and issue no write on the
connection. -/
theorem c1_range_validation (c : RangeId) (v : DecNum) :
    (DecNum.le (rangeControl c).lo v = true →
      DecNum.le v (rangeControl c).hi = true →
      (rangeControl c).set v
          = .ok (pyFormat (rangeControl c).set_command "%g" (fmtG v))
        ∧ opEvents (.setRange c v)
          = [.write (pyFormat (rangeControl c).set_command "%g" (fmtG v))])
    ∧ (¬(DecNum.le (rangeControl c).lo v = true
          ∧ DecNum.le v (rangeControl c).hi = true) →
      (rangeControl c).set v = .error .rangeError
        ∧ opEvents (.setRange c v) = []) := by
  constructor
  · intro h1 h2
    have hset : (rangeControl c).set v
        = .ok (pyFormat (rangeControl c).set_command "%g" (fmtG v)) := by
      simp [RangeControl.set, strict_range, h1, h2]
    exact ⟨hset, by simp [opEvents, hset]⟩
  · intro h
    have hb : (DecNum.le (rangeControl c).lo v
        && DecNum.le v (rangeControl c).hi) = false := by
      cases ha : DecNum.le (rangeControl c).lo v <;>
        cases hc : DecNum.le v (rangeControl c).hi <;> simp_all
    have hset : (rangeControl c).set v = .error .rangeError := by
      simp [RangeControl.set, strict_range, hb]
    exact ⟨hset, by simp [opEvents, hset]⟩

/-- Witness for C1 at the `reference_level` control: `-50` dBm is inside
`[-100, 20]` and is formatted as is, `100` dBm is outside and is rejected
with no write. -/
theorem c1_range_validation_witness :
    (rangeControl .referenceLevel).set ⟨-50, 0⟩
        = .ok (pyFormat (rangeControl .referenceLevel).set_command "%g"
            (fmtG ⟨-50, 0⟩))
    ∧ (rangeControl .referenceLevel).set ⟨100, 0⟩ = .error .rangeError
    ∧ opEvents (.setRange .referenceLevel ⟨100, 0⟩) = [] :=
  ⟨((c1_range_validation .referenceLevel ⟨-50, 0⟩).1 (by decide) (by decide)).1,
   ((c1_range_validation .referenceLevel ⟨100, 0⟩).2 (by decide)).1,
   ((c1_range_validation .referenceLevel ⟨100, 0⟩).2 (by decide)).2⟩

/-- C2: for every mapped control of the driver and every candidate key, a
key present in the value map makes the set operation succeed with the
mapped device code (not the symbolic key) formatted into the command, while
an absent key makes it fail with `InvalidChoiceError` and write no
command. -/
theorem c2_discrete_validation (c : MappedId) (v : String) :
    (∀ code : Int, (v, code) ∈ (mappedControl c).values →
      (mappedControl c).set v
          = .ok (pyFormat (mappedControl c).set_command (mappedControl c).slot
              (toString code))
        ∧ opEvents (.setMapped c v)
          = [.write (pyFormat (mappedControl c).set_command
              (mappedControl c).slot (toString code))])
    ∧ (v ∉ (mappedControl c).values.map Prod.fst →
      (mappedControl c).set v = .error .invalidChoiceError
        ∧ opEvents (.setMapped c v) = []) := by
  cases c
  case sweepMode =>
    constructor
    · intro code h
      simp [mappedControl, sweep_mode] at h
      rcases h with ⟨hv, hc⟩ | ⟨hv, hc⟩ | ⟨hv, hc⟩ | ⟨hv, hc⟩ <;>
        subst hv <;> subst hc <;> exact ⟨rfl, rfl⟩
    · intro h
      simp [mappedControl, sweep_mode] at h
      obtain ⟨h1, h2, h3, h4⟩ := h
      have e1 : ("SINGLE" == v) = false := beq_eq_false_iff_ne.mpr (Ne.symm h1)
      have e2 : ("REPEAT" == v) = false := beq_eq_false_iff_ne.mpr (Ne.symm h2)
      have e3 : ("AUTO" == v) = false := beq_eq_false_iff_ne.mpr (Ne.symm h3)
      have e4 : ("SEGMENT" == v) = false := beq_eq_false_iff_ne.mpr (Ne.symm h4)
      have hset : (mappedControl .sweepMode).set v = .error .invalidChoiceError := by
        simp [MappedControl.set, mappedControl, sweep_mode, List.find?,
          e1, e2, e3, e4]
      exact ⟨hset, by simp [opEvents, hset]⟩
  case sweepSpeed =>
    constructor
    · intro code h
      simp [mappedControl, sweep_speed] at h
      rcases h with ⟨hv, hc⟩ | ⟨hv, hc⟩ <;>
        subst hv <;> subst hc <;> exact ⟨rfl, rfl⟩
    · intro h
      simp [mappedControl, sweep_speed] at h
      obtain ⟨h1, h2⟩ := h
      have e1 : ("1x" == v) = false := beq_eq_false_iff_ne.mpr (Ne.symm h1)
      have e2 : ("2x" == v) = false := beq_eq_false_iff_ne.mpr (Ne.symm h2)
      have hset : (mappedControl .sweepSpeed).set v = .error .invalidChoiceError := by
        simp [MappedControl.set, mappedControl, sweep_speed, List.find?, e1, e2]
      exact ⟨hset, by simp [opEvents, hset]⟩

/-- Witness for C2: `"REPEAT"` is a key of `sweep_mode` and the command is
formatted with device code `2`; `"FAST"` is not a key and is rejected with
no write. -/
theorem c2_discrete_validation_witness :
    (mappedControl .sweepMode).set "REPEAT"
        = .ok (pyFormat (mappedControl .sweepMode).set_command
            (mappedControl .sweepMode).slot (toString (2 : Int)))
    ∧ (mappedControl .sweepMode).set "FAST" = .error .invalidChoiceError
    ∧ opEvents (.setMapped .sweepMode "FAST") = [] :=
  ⟨((c2_discrete_validation .sweepMode "REPEAT").1 2 (by decide)).1,
   ((c2_discrete_validation .sweepMode "FAST").2 (by decide)).1,
   ((c2_discrete_validation .sweepMode "FAST").2 (by decide)).2⟩

/-- C3: for every mapped control of the driver, a device response equal to
one of the mapped device codes makes get return the corresponding symbolic
key, and a response matching no mapped code makes get fail with
`MappingError`. -/
theorem c3_mapped_get (c : MappedId) (r : Int) :
    (∀ k : String, (k, r) ∈ (mappedControl c).values →
      (mappedControl c).getFromResponse r = .ok k)
    ∧ (r ∉ (mappedControl c).values.map Prod.snd →
      (mappedControl c).getFromResponse r = .error .mappingError) := by
  cases c
  case sweepMode =>
    constructor
    · intro k h
      simp [mappedControl, sweep_mode] at h
      rcases h with ⟨hk, hr⟩ | ⟨hk, hr⟩ | ⟨hk, hr⟩ | ⟨hk, hr⟩ <;>
        subst hk <;> subst hr <;> rfl
    · intro h
      simp [mappedControl, sweep_mode] at h
      obtain ⟨h1, h2, h3, h4⟩ := h
      have e1 : ((1 : Int) == r) = false := beq_eq_false_iff_ne.mpr (Ne.symm h1)
      have e2 : ((2 : Int) == r) = false := beq_eq_false_iff_ne.mpr (Ne.symm h2)
      have e3 : ((3 : Int) == r) = false := beq_eq_false_iff_ne.mpr (Ne.symm h3)
      have e4 : ((4 : Int) == r) = false := beq_eq_false_iff_ne.mpr (Ne.symm h4)
      simp [MappedControl.getFromResponse, mappedControl, sweep_mode,
        List.find?, e1, e2, e3, e4]
  case sweepSpeed =>
    constructor
    · intro k h
      simp [mappedControl, sweep_speed] at h
      rcases h with ⟨hk, hr⟩ | ⟨hk, hr⟩ <;> subst hk <;> subst hr <;> rfl
    · intro h
      simp [mappedControl, sweep_speed] at h
      obtain ⟨h1, h2⟩ := h
      have e1 : ((0 : Int) == r) = false := beq_eq_false_iff_ne.mpr (Ne.symm h1)
      have e2 : ((1 : Int) == r) = false := beq_eq_false_iff_ne.mpr (Ne.symm h2)
      simp [MappedControl.getFromResponse, mappedControl, sweep_speed,
        List.find?, e1, e2]

/-- Witness for C3: response `3` on `sweep_mode` maps back to `"AUTO"`;
response `7` on `sweep_speed` matches no code and fails with
`MappingError`. -/
theorem c3_mapped_get_witness :
    (mappedControl .sweepMode).getFromResponse 3 = .ok "AUTO"
    ∧ (mappedControl .sweepSpeed).getFromResponse 7 = .error .mappingError :=
  ⟨(c3_mapped_get .sweepMode 3).1 "AUTO" (by decide),
   (c3_mapped_get .sweepSpeed 7).2 (by decide)⟩

/-- C4: setting `sweep_mode` to `"REPEAT"` writes `:INITiate:SMODe 2` (the
mapped device code), and a get for which the device responds `2` returns
`"REPEAT"`: forward map then reverse map is the identity on the key. -/
theorem c4_sweep_mode_roundtrip :
    sweep_mode.set "REPEAT" = .ok ":INITiate:SMODe 2"
    ∧ opEvents (.setMapped .sweepMode "REPEAT") = [.write ":INITiate:SMODe 2"]
    ∧ sweep_mode.getFromResponse 2 = .ok "REPEAT" :=
  ⟨rfl, rfl, rfl⟩

/-- C5: `delete_trace` writes exactly `:TRACe:DELete:ALL` when the argument
is the sentinel `"ALL"` and `:TRACe:DELete ` followed by the trace
identifier otherwise; exactly one command is written either way. -/
theorem c5_delete_trace (trace : String) :
    opEvents (.deleteTrace trace) = [.write (delete_trace trace)]
    ∧ (trace = "ALL" → delete_trace trace = ":TRACe:DELete:ALL")
    ∧ (trace ≠ "ALL" → delete_trace trace = ":TRACe:DELete " ++ trace) := by
  refine ⟨rfl, ?_, ?_⟩
  · intro h
    subst h
    rfl
  · intro h
    have e : (trace == "ALL") = false := beq_eq_false_iff_ne.mpr h
    simp [delete_trace, e]

/-- Witness for C5: `delete_trace "ALL"` and `delete_trace "TRB"`. -/
theorem c5_delete_trace_witness :
    delete_trace "ALL" = ":TRACe:DELete:ALL"
    ∧ delete_trace "TRB" = ":TRACe:DELete TRB" :=
  ⟨(c5_delete_trace "ALL").2.1 rfl,
   (c5_delete_trace "TRB").2.2 (by decide)⟩

/-- C6: `copy_trace` writes exactly one command of the form
`:TRACe:COPY {source},{destination}` for every pair of identifiers, with no
client-side validation; in particular `copy_trace "TRA" "TRC"` writes
exactly `:TRACe:COPY TRA,TRC`. -/
theorem c6_copy_trace :
    (∀ source destination : String,
      copy_trace source destination
          = ":TRACe:COPY " ++ source ++ "," ++ destination
        ∧ opEvents (.copyTrace source destination)
          = [.write (copy_trace source destination)])
    ∧ copy_trace "TRA" "TRC" = ":TRACe:COPY TRA,TRC" :=
  ⟨fun _ _ => ⟨rfl, rfl⟩, rfl⟩

/-- C7: setting `wavelength_center` to `1550e-9` passes the
`[50e-9, 2250e-9]` bounds and writes `:SENSe:WAVelength:CENTer 1.55e-06`
(the `%g` rendering of `1550e-9`); setting `3000e-9` fails with
`RangeError` and nothing is written. -/
theorem c7_wavelength_center :
    wavelength_center.set ⟨1550, -9⟩
        = .ok ":SENSe:WAVelength:CENTer 1.55e-06"
    ∧ opEvents (.setRange .wavelengthCenter ⟨1550, -9⟩)
        = [.write ":SENSe:WAVelength:CENTer 1.55e-06"]
    ∧ wavelength_center.set ⟨3000, -9⟩ = .error .rangeError
    ∧ opEvents (.setRange .wavelengthCenter ⟨3000, -9⟩) = [] :=
  ⟨rfl, rfl, rfl, rfl⟩

/-- C9: the `active_trace` control has no validator and no value map: an
integer candidate is interpolated into `:TRACe:ACTive %d` and sent
unchecked, a string candidate such as `"TRA"` fails at formatting time with
a `TypeError`, and no candidate is ever rejected with `RangeError` or
`InvalidChoiceError`. -/
theorem c9_active_trace_unvalidated :
    (∀ n : Int, active_trace_set (.int n)
        = .ok (pyFormat ":TRACe:ACTive %d" "%d" (toString n))
      ∧ active_trace_set (.int n) = .ok (":TRACe:ACTive " ++ toString n))
    ∧ (∀ s : String, active_trace_set (.str s) = .error .typeError)
    ∧ (∀ v : PyVal, active_trace_set v ≠ .error .rangeError
        ∧ active_trace_set v ≠ .error .invalidChoiceError)
    ∧ active_trace_set (.str "TRA") = .error .typeError := by
  refine ⟨fun n => ⟨rfl, ?_⟩, fun s => rfl, fun v => ?_, rfl⟩
  · rw [show active_trace_set (.int n)
        = .ok (pyFormat ":TRACe:ACTive %d" "%d" (toString n)) from rfl,
      pyFormat_active_trace]
  · cases v <;>
      exact ⟨by simp [active_trace_set], by simp [active_trace_set]⟩

/-- Witness for C9: the integer `1` is formatted and sent; the string
`"TRB"` fails at formatting time. -/
theorem c9_active_trace_unvalidated_witness :
    active_trace_set (.int 1) = .ok ":TRACe:ACTive 1"
    ∧ active_trace_set (.str "TRB") = .error .typeError :=
  ⟨(c9_active_trace_unvalidated.1 1).2,
   c9_active_trace_unvalidated.2.1 "TRB"⟩

/-- C10: `get_xdata` and `get_ydata` default their trace argument to
`"TRA"`, query `:TRACe:X? {trace}` and `:TRACe:Y? {trace}` respectively,
and return the connection's parsed float sequence unchanged. -/
theorem c10_get_data :
    (∀ (vals : String → List DecNum) (trace : String),
      get_xdata vals trace = vals (":TRACe:X? " ++ trace)
        ∧ get_ydata vals trace = vals (":TRACe:Y? " ++ trace))
    ∧ (∀ vals : String → List DecNum,
      get_xdata vals = vals ":TRACe:X? TRA"
        ∧ get_ydata vals = vals ":TRACe:Y? TRA")
    ∧ (∀ trace : String,
      opEvents (.getXdata trace) = [.query (":TRACe:X? " ++ trace)]
        ∧ opEvents (.getYdata trace) = [.query (":TRACe:Y? " ++ trace)]) :=
  ⟨fun _ _ => ⟨rfl, rfl⟩, fun _ => ⟨rfl, rfl⟩, fun _ => ⟨rfl, rfl⟩⟩

/-- C8: every public operation of the driver issues at most one write on
the connection, and every query operation waits for exactly one
response. -/
theorem c8_single_write (op : Op) :
    writesOf (opEvents op) ≤ 1
    ∧ (isQueryOp op = true → responsesOf (opEvents op) = 1) := by
  cases op
  case setRange c v =>
    constructor
    · simp only [opEvents]
      cases hs : (rangeControl c).set v <;> simp [writesOf, Event.writes]
    · intro h
      simp [isQueryOp] at h
  case setMapped c v =>
    constructor
    · simp only [opEvents]
      cases hs : (mappedControl c).set v <;> simp [writesOf, Event.writes]
    · intro h
      simp [isQueryOp] at h
  case setActiveTrace v =>
    constructor
    · simp only [opEvents]
      cases hs : active_trace_set v <;> simp [writesOf, Event.writes]
    · intro h
      simp [isQueryOp] at h
  all_goals
    exact ⟨by simp [opEvents, writesOf, Event.writes],
      fun h => by
        first
        | (simp [opEvents, responsesOf, Event.responses]; done)
        | simp [isQueryOp] at h⟩

/-- Witness for C8 at the query `get_xdata "TRA"`: one write, exactly one
response. -/
theorem c8_single_write_witness :
    writesOf (opEvents (.getXdata "TRA")) ≤ 1
    ∧ responsesOf (opEvents (.getXdata "TRA")) = 1 :=
  ⟨(c8_single_write (.getXdata "TRA")).1,
   (c8_single_write (.getXdata "TRA")).2 rfl⟩
